import Mathlib

/-!
Verification of the spillway-discharge calculator.

Shallow embedding of the three source variants:
* `spillway_discharge.py` — class `StreamlitSpillwayCalculator` with
  `get_cfs_for_height`, `calculate_discharge`, and the `main` handler that
  appends results to a session accumulator, clears it, and summarizes it.
* `spillway_discharge_old.py` and `unnamed/part_000` — legacy variants with a
  module-level exact-only lookup that substitutes `cfs_rate = 0` when the
  requested height is absent, and the same discharge formula with divisor
  written `384` resp. `16*24`.

Heights, rates and discharges are modelled as `ℚ` (the Python code uses
floats, but every concrete value appearing in the claims is exactly
representable, and the formulas are single exact multiplications/divisions).
Timestamps are dropped: they come from an external clock and no claim
mentions them.
-/

/-- A rate table row: (height, cfs). Mirrors the CSV columns `height`, `cfs`
read by `load_discharge_data` (and `discharge_data.csv` in the legacy
variants), kept in file order. -/
abbrev RateTable := List (ℚ × ℚ)

/-- The built-in default table written by `create_sample_csv`
(spillway_discharge.py lines 31-34): heights 0.50..3.00 in 0.50 steps with
rates 9000, 18000, 29000, 38000, 49000, 58000. -/
def sample_data : RateTable :=
  [(1/2, 9000), (1, 18000), (3/2, 29000), (2, 38000), (5/2, 49000), (3, 58000)]

/-- Pandas `(discharge_data['height'] - height).abs().idxmin()` followed by
`.loc[closest_idx]` (spillway_discharge.py lines 60-62): the first row, in
table order, minimizing the absolute difference between its height and the
requested height (`idxmin` returns the first occurrence of the minimum).
`none` exactly when the table is empty (pandas raises on an empty series). -/
def abs_idxmin (height : ℚ) : RateTable → Option (ℚ × ℚ)
  | [] => none
  | e :: es =>
    match abs_idxmin height es with
    | none => some e
    | some b => if |b.1 - height| < |e.1 - height| then some b else some e

/-- Embedding of `get_cfs_for_height` (spillway_discharge.py lines 52-64): first look for
an exact height match (`discharge_data[discharge_data['height'] == height]`,
taking `.iloc[0]`, i.e. the first matching row); if none, fall back to the
closest row by `abs().idxmin()`. Returns (cfs, exact_match); `none` models
the pandas exception on an empty table. -/
def get_cfs_for_height (height : ℚ) (discharge_data : RateTable) : Option (ℚ × Bool) :=
  match discharge_data.find? (fun e => decide (e.1 = height)) with
  | some e => some (e.2, true)
  | none => (abs_idxmin height discharge_data).map (fun c => (c.2, false))

/-- The record returned by `calculate_discharge` (spillway_discharge.py lines
74-82), minus the wall-clock `timestamp` field. -/
structure Entry where
  num_gates : ℕ
  duration : ℚ
  gate_height : ℚ
  cfs_value : ℚ
  discharge : ℚ
  exact_match : Bool
deriving Repr, DecidableEq

/-- The discharge formula of spillway_discharge.py line 72:
`(num_gates * duration * cfs_value) / (16 * 24)`. -/
def discharge_formula (num_gates : ℕ) (duration cfs_value : ℚ) : ℚ :=
  ((num_gates : ℚ) * duration * cfs_value) / (16 * 24)

/-- The discharge formula of spillway_discharge_old.py line 53:
`(num_of_gates * duration * cfs_rate) / 384`. -/
def spd_formula_old (num_of_gates : ℕ) (duration cfs_rate : ℚ) : ℚ :=
  ((num_of_gates : ℚ) * duration * cfs_rate) / 384

/-- The discharge formula of unnamed/part_000 line 51:
`(num_of_gates * duration * cfs_rate) / (16*24)`. -/
def spd_formula_copy (num_of_gates : ℕ) (duration cfs_rate : ℚ) : ℚ :=
  ((num_of_gates : ℚ) * duration * cfs_rate) / (16 * 24)

/-- Embedding of `calculate_discharge` (spillway_discharge.py lines 66-82): resolve the
rate for the requested height, then build the result record with
`discharge = (num_gates * duration * cfs_value) / (16 * 24)`. The function
performs no validation of `num_gates` or `duration`. `none` models the
lookup exception on an empty table (in which case no record is built). -/
def calculate_discharge (num_gates : ℕ) (duration gate_height : ℚ)
    (discharge_data : RateTable) : Option Entry :=
  match get_cfs_for_height gate_height discharge_data with
  | none => none
  | some (cfs_value, exact_match) =>
    some { num_gates := num_gates, duration := duration, gate_height := gate_height,
           cfs_value := cfs_value,
           discharge := ((num_gates : ℚ) * duration * cfs_value) / (16 * 24),
           exact_match := exact_match }

/-- The session accumulator (spillway_discharge.py `initialize_session_state`,
lines 22-25): `st.session_state.calculations` and
`st.session_state.total_discharge`. -/
structure Accum where
  calculations : List Entry
  total_discharge : ℚ
deriving Repr, DecidableEq

/-- Fresh session state per `initialize_session_state`: empty list, total 0.0. -/
def emptyAccum : Accum := ⟨[], 0⟩

/-- Lines 182-183: `st.session_state.calculations.append(result)` and
`st.session_state.total_discharge += result['discharge']`. -/
def appendCalc (a : Accum) (e : Entry) : Accum :=
  { calculations := a.calculations ++ [e],
    total_discharge := a.total_discharge + e.discharge }

/-- Lines 194-195 (the Clear All button handler):
`st.session_state.calculations = []` and
`st.session_state.total_discharge = 0.0`. -/
def clearAll (_ : Accum) : Accum := ⟨[], 0⟩

/-- The Calculate button handler (lines 176-183): compute the entry, then
append it and accumulate its discharge. If the computation fails (empty
table), the exception aborts the handler before the append, so the
accumulator is untouched. -/
def calcButton (a : Accum) (num_gates : ℕ) (duration gate_height : ℚ)
    (discharge_data : RateTable) : Accum :=
  match calculate_discharge num_gates duration gate_height discharge_data with
  | none => a
  | some result => appendCalc a result

/-- The summary block shown by `main` (lines 203-212). -/
structure Summary where
  count : ℕ
  total_discharge : ℚ
  average_discharge : ℚ
deriving Repr, DecidableEq

/-- Lines 203-212: the metrics are rendered only under
`if len(st.session_state.calculations) > 0`, with
`avg_discharge = total_discharge / len(calculations)`; with no calculations
the block is skipped (an info message is shown instead, line 234). -/
def summarize (a : Accum) : Option Summary :=
  if 0 < a.calculations.length then
    some ⟨a.calculations.length, a.total_discharge,
          a.total_discharge / (a.calculations.length : ℚ)⟩
  else none

/-- Lines 186-190: when `result['exact_match']` is false, the handler
recomputes the closest height by `abs().idxmin()` and shows
`st.warning(f"Using closest available height: {closest_height} (CFS: {result['cfs_value']:,})")`.
The pair carried here is exactly the data interpolated into that message:
(closest_height, cfs_value). `none` when no warning is shown. -/
def closest_height_warning (num_gates : ℕ) (duration gate_height : ℚ)
    (discharge_data : RateTable) : Option (ℚ × ℚ) :=
  match calculate_discharge num_gates duration gate_height discharge_data with
  | none => none
  | some result =>
    if result.exact_match then none
    else (abs_idxmin gate_height discharge_data).map (fun c => (c.1, result.cfs_value))

/-- Module-level lookup of spillway_discharge_old.py lines 43-50 and
unnamed/part_000 lines 41-48: `rate_data = df[df['height'] == gate_height]`;
if non-empty, `cfs_rate = rate_data.iloc[0, 1]` (first matching row's second
column); otherwise `cfs_rate = 0` with a "No data available" text. -/
def legacy_cfs_rate (gate_height : ℚ) (df : RateTable) : ℚ :=
  match df.find? (fun e => decide (e.1 = gate_height)) with
  | some e => e.2
  | none => 0

/-- Embedding of spillway_discharge_old.py line 53: the SPD reported for a calculation,
using `legacy_cfs_rate` (so rate 0 when the height is absent). -/
def legacy_spd (num_of_gates : ℕ) (duration gate_height : ℚ) (df : RateTable) : ℚ :=
  ((num_of_gates : ℚ) * duration * legacy_cfs_rate gate_height df) / 384

/-- The UI bound on `num_gates` (spillway_discharge.py lines 142-148:
`st.number_input` with `min_value=1`, `max_value=50`, integer step). -/
def numGatesInput (n : ℕ) : Prop := 1 ≤ n ∧ n ≤ 50

/-- The UI bound on `duration` (lines 152-158: `st.number_input` with
`min_value=0.1`, `max_value=1000.0`). -/
def durationInput (d : ℚ) : Prop := 1/10 ≤ d ∧ d ≤ 1000

/-- User actions that mutate the accumulator in `main`: the Calculate button
(lines 176-183, which appends the computed entry) and the Clear All button
(lines 192-196); `append` is the bare append-and-accumulate step of lines
182-183 on an already-computed entry. -/
inductive Op where
  | compute (num_gates : ℕ) (duration gate_height : ℚ)
  | append (e : Entry)
  | clear
deriving Repr, DecidableEq

/-- One button press. -/
def step (discharge_data : RateTable) (a : Accum) : Op → Accum
  | .compute n d h => calcButton a n d h discharge_data
  | .append e => appendCalc a e
  | .clear => clearAll a

/-- A session: a sequence of button presses starting from the fresh session
state. -/
def runSession (discharge_data : RateTable) (ops : List Op) : Accum :=
  ops.foldl (step discharge_data) emptyAccum

/-- An entry with a prescribed discharge, used to exercise the accumulator on
the spec's 10/20/30 example. -/
def testEntry (x : ℚ) : Entry :=
  { num_gates := 1, duration := 1, gate_height := 1, cfs_value := 1,
    discharge := x, exact_match := true }

/-- The accumulator invariant of spec §3: the running total equals the sum of
the entries' discharges. -/
def accInv (a : Accum) : Prop :=
  a.total_discharge = (a.calculations.map Entry.discharge).sum

/-! ### Helper lemmas -/

lemma abs_idxmin_cons (h : ℚ) (e : ℚ × ℚ) (es : RateTable) :
    abs_idxmin h (e :: es) =
      match abs_idxmin h es with
      | none => some e
      | some b => if |b.1 - h| < |e.1 - h| then some b else some e := rfl

lemma abs_idxmin_eq_none (h : ℚ) (t : RateTable) :
    abs_idxmin h t = none ↔ t = [] := by
  cases t with
  | nil => simp [abs_idxmin]
  | cons e es =>
    rw [abs_idxmin_cons]
    constructor
    · intro hc
      cases hes : abs_idxmin h es with
      | none => simp only [hes] at hc; simp at hc
      | some b =>
        simp only [hes] at hc
        by_cases hlt : |b.1 - h| < |e.1 - h|
        · rw [if_pos hlt] at hc; simp at hc
        · rw [if_neg hlt] at hc; simp at hc
    · intro hc; simp at hc

lemma abs_idxmin_isSome (h : ℚ) (e : ℚ × ℚ) (es : RateTable) :
    ∃ c, abs_idxmin h (e :: es) = some c := by
  cases hc : abs_idxmin h (e :: es) with
  | some c => exact ⟨c, rfl⟩
  | none => exact absurd ((abs_idxmin_eq_none h _).mp hc) (by simp)

lemma abs_idxmin_spec (h : ℚ) :
    ∀ (t : RateTable) (c : ℚ × ℚ), abs_idxmin h t = some c →
      ∃ l₁ l₂, t = l₁ ++ c :: l₂ ∧
        (∀ e' ∈ t, |c.1 - h| ≤ |e'.1 - h|) ∧
        (∀ e' ∈ l₁, |c.1 - h| < |e'.1 - h|) := by
  intro t
  induction t with
  | nil => intro c hc; simp [abs_idxmin] at hc
  | cons e es ih =>
    intro c hc
    rw [abs_idxmin_cons] at hc
    cases hes : abs_idxmin h es with
    | none =>
      simp only [hes] at hc
      have he : es = [] := (abs_idxmin_eq_none h es).mp hes
      have hce : c = e := by simpa using hc.symm
      subst hce; subst he
      exact ⟨[], [], rfl, by simp, by simp⟩
    | some b =>
      simp only [hes] at hc
      obtain ⟨l₁, l₂, heq, hmin, hfirst⟩ := ih b hes
      by_cases hlt : |b.1 - h| < |e.1 - h|
      · rw [if_pos hlt] at hc
        have hcb : c = b := by simpa using hc.symm
        subst hcb
        refine ⟨e :: l₁, l₂, by rw [heq, List.cons_append], ?_, ?_⟩
        · intro e' he'
          rcases List.mem_cons.mp he' with rfl | h'
          · exact le_of_lt hlt
          · exact hmin e' h'
        · intro e' he'
          rcases List.mem_cons.mp he' with rfl | h'
          · exact hlt
          · exact hfirst e' h'
      · rw [if_neg hlt] at hc
        have hce : c = e := by simpa using hc.symm
        subst hce
        push_neg at hlt
        refine ⟨[], es, rfl, ?_, by simp⟩
        intro e' he'
        rcases List.mem_cons.mp he' with rfl | h'
        · exact le_refl _
        · exact le_trans hlt (hmin e' h')

lemma find?_first_match (hgt r : ℚ) :
    ∀ (l₁ rest : RateTable), (∀ e ∈ l₁, e.1 ≠ hgt) →
      (l₁ ++ (hgt, r) :: rest).find? (fun e => decide (e.1 = hgt)) = some (hgt, r) := by
  intro l₁
  induction l₁ with
  | nil =>
    intro rest _
    simp [List.find?_cons_of_pos]
  | cons e es ih =>
    intro rest hne
    rw [List.cons_append, List.find?_cons_of_neg, ih rest]
    · intro e' he'; exact hne e' (List.mem_cons_of_mem e he')
    · simp [hne e (List.mem_cons_self e es)]

lemma accInv_empty : accInv emptyAccum := by
  simp [accInv, emptyAccum]

lemma accInv_append (a : Accum) (e : Entry) (ha : accInv a) :
    accInv (appendCalc a e) := by
  unfold accInv at ha ⊢
  simp [appendCalc, ha]

lemma accInv_step (t : RateTable) (a : Accum) (op : Op) (ha : accInv a) :
    accInv (step t a op) := by
  cases op with
  | compute n d h =>
    simp only [step, calcButton]
    cases calculate_discharge n d h t with
    | none => exact ha
    | some result => exact accInv_append a result ha
  | append e => exact accInv_append a e ha
  | clear => simp [step, clearAll, accInv]

lemma accInv_foldl (t : RateTable) :
    ∀ (ops : List Op) (a : Accum), accInv a → accInv (ops.foldl (step t) a) := by
  intro ops
  induction ops with
  | nil => intro a ha; exact ha
  | cons op ops ih =>
    intro a ha
    exact ih (step t a op) (accInv_step t a op ha)

/-! ### Claim theorems -/

/-- Claim C1: for every gate count, duration and resolved rate,
`calculate_discharge` returns discharge = (gate_count × duration × rate) / 384;
in particular with 2 gates, 3 hours and rate 9000 (height 0.5 on the default
table) the discharge is (2×3×9000)/384 = 140.625. -/
theorem c1_discharge_formula :
    (∀ (n : ℕ) (d h : ℚ) (t : RateTable) (r : ℚ) (ex : Bool),
      get_cfs_for_height h t = some (r, ex) →
      (calculate_discharge n d h t).map Entry.discharge = some ((n : ℚ) * d * r / 384))
    ∧ (calculate_discharge 2 3 (1/2) sample_data).map Entry.discharge
        = some ((2 * 3 * 9000 : ℚ) / 384)
    ∧ (2 * 3 * 9000 : ℚ) / 384 = 140.625 := by
  have hbase : ∀ (n : ℕ) (d h : ℚ) (t : RateTable) (r : ℚ) (ex : Bool),
      get_cfs_for_height h t = some (r, ex) →
      (calculate_discharge n d h t).map Entry.discharge = some ((n : ℚ) * d * r / 384) := by
    intro n d h t r ex hres
    simp only [calculate_discharge, hres, Option.map_some]
    norm_num
  refine ⟨hbase, ?_, by norm_num⟩
  have h0 : get_cfs_for_height (1/2) sample_data = some (9000, true) := by
    simp [get_cfs_for_height, sample_data]
  rw [hbase 2 3 (1/2) sample_data 9000 true h0]
  norm_num

/-- Witness for C1: the universally quantified part applied at gate_count 2,
duration 3, height 0.5 on the default table. -/
theorem c1_discharge_formula_witness :
    (calculate_discharge 2 3 (1/2) sample_data).map Entry.discharge
      = some (((2 : ℕ) : ℚ) * 3 * 9000 / 384) := by
  have h0 : get_cfs_for_height (1/2) sample_data = some (9000, true) := by
    simp [get_cfs_for_height, sample_data]
  exact c1_discharge_formula.1 2 3 (1/2) sample_data 9000 true h0

/-- Claim C5: after every sequence of compute/append/clear operations starting
from the empty accumulator, total_discharge equals the sum of the discharges
of the current entries; appending entries with discharges 10, 20, 30 yields
total 60, count 3, average 20. -/
theorem c5_total_equals_sum :
    (∀ (t : RateTable) (ops : List Op),
      (runSession t ops).total_discharge
        = ((runSession t ops).calculations.map Entry.discharge).sum) ∧
    (appendCalc (appendCalc (appendCalc emptyAccum (testEntry 10)) (testEntry 20))
        (testEntry 30)).total_discharge = 60 ∧
    summarize (appendCalc (appendCalc (appendCalc emptyAccum (testEntry 10))
        (testEntry 20)) (testEntry 30)) = some ⟨3, 60, 20⟩ := by
  refine ⟨?_, ?_, ?_⟩
  · intro t ops
    have h := accInv_foldl t ops emptyAccum accInv_empty
    unfold accInv at h
    unfold runSession
    exact h
  · norm_num [appendCalc, emptyAccum, testEntry]
  · norm_num [summarize, appendCalc, emptyAccum, testEntry]

/-- Claim C6: clearing resets the accumulator to the initial state — empty
entry list, count 0, total 0 — whatever the prior state was. -/
theorem c6_clear_resets (a : Accum) :
    clearAll a = emptyAccum ∧ (clearAll a).calculations = [] ∧
    (clearAll a).calculations.length = 0 ∧ (clearAll a).total_discharge = 0 := by
  simp [clearAll, emptyAccum]

/-- Claim C7: the summary divides total by count exactly when count > 0, and
is omitted (no division) when count = 0. -/
theorem c7_summarize_division (a : Accum) :
    (0 < a.calculations.length →
      summarize a = some ⟨a.calculations.length, a.total_discharge,
        a.total_discharge / (a.calculations.length : ℚ)⟩) ∧
    (a.calculations.length = 0 → summarize a = none) := by
  constructor
  · intro h; simp [summarize, h]
  · intro h; simp [summarize, h]

/-- Witness for C7: a one-entry accumulator is summarized with average 10/1;
the empty accumulator gets no summary. -/
theorem c7_summarize_division_witness :
    summarize (appendCalc emptyAccum (testEntry 10)) = some ⟨1, 10, 10⟩ ∧
    summarize emptyAccum = none := by
  constructor
  · have h1 : 0 < (appendCalc emptyAccum (testEntry 10)).calculations.length := by
      simp [appendCalc, emptyAccum]
    rw [(c7_summarize_division (appendCalc emptyAccum (testEntry 10))).1 h1]
    norm_num [appendCalc, emptyAccum, testEntry]
  · exact (c7_summarize_division emptyAccum).2 (by simp [emptyAccum])

/-- Claim C9: the discharge formulas of the three variants agree for all
inputs — dividing by 16×24 (spillway_discharge.py, unnamed/part_000) equals
dividing by the bare 384 (spillway_discharge_old.py). -/
theorem c9_normalization_constant (n : ℕ) (d r : ℚ) :
    discharge_formula n d r = spd_formula_old n d r ∧
    spd_formula_old n d r = spd_formula_copy n d r := by
  unfold discharge_formula spd_formula_old spd_formula_copy
  norm_num

/-- Claim C2: on a non-empty table with no exact entry for the requested
height, the lookup returns the rate of the entry minimizing the absolute
height difference, with exact = false, ties broken by first occurrence in
table order; in particular resolve(1.75) on the default table gives
(29000, exact=false). -/
theorem c2_nearest_match :
    (∀ (t : RateTable) (hgt : ℚ), t ≠ [] → (∀ e ∈ t, e.1 ≠ hgt) →
      ∃ l₁ c l₂, t = l₁ ++ c :: l₂ ∧
        get_cfs_for_height hgt t = some (c.2, false) ∧
        (∀ e' ∈ t, |c.1 - hgt| ≤ |e'.1 - hgt|) ∧
        (∀ e' ∈ l₁, |c.1 - hgt| < |e'.1 - hgt|)) ∧
    get_cfs_for_height (7/4) sample_data = some (29000, false) := by
  constructor
  · intro t hgt hne hnoex
    have hfind : t.find? (fun e => decide (e.1 = hgt)) = none :=
      List.find?_eq_none.mpr (by intro x hx; simpa using hnoex x hx)
    obtain ⟨e, es, rfl⟩ := List.exists_cons_of_ne_nil hne
    obtain ⟨c, hc⟩ := abs_idxmin_isSome hgt e es
    obtain ⟨l₁, l₂, heq, hmin, hfirst⟩ := abs_idxmin_spec hgt (e :: es) c hc
    refine ⟨l₁, c, l₂, heq, ?_, hmin, hfirst⟩
    simp [get_cfs_for_height, hfind, hc]
  · norm_num [get_cfs_for_height, sample_data, abs_idxmin, List.find?, abs, max_def]

/-- Witness for C2: the nearest-match characterization instantiated on the
default table at requested height 1.75. -/
theorem c2_nearest_match_witness :
    ∃ l₁ c l₂, sample_data = l₁ ++ c :: l₂ ∧
      get_cfs_for_height (7/4) sample_data = some (c.2, false) ∧
      (∀ e' ∈ sample_data, |c.1 - (7:ℚ)/4| ≤ |e'.1 - (7:ℚ)/4|) ∧
      (∀ e' ∈ l₁, |c.1 - (7:ℚ)/4| < |e'.1 - (7:ℚ)/4|) := by
  apply c2_nearest_match.1 sample_data (7/4)
  · simp [sample_data]
  · norm_num [sample_data]

/-- Claim C10: when a table contains several rows with the same height,
resolving that height returns the rate of the first such row (first-wins). -/
theorem c10_duplicate_first_wins (hgt r₁ r₂ : ℚ) (l₁ l₂ l₃ : RateTable)
    (hfirst : ∀ e ∈ l₁, e.1 ≠ hgt) :
    get_cfs_for_height hgt (l₁ ++ (hgt, r₁) :: l₂ ++ (hgt, r₂) :: l₃)
      = some (r₁, true) := by
  have h := find?_first_match hgt r₁ l₁ (l₂ ++ (hgt, r₂) :: l₃) hfirst
  simp [get_cfs_for_height, h]

/-- Witness for C10: a table with duplicate height 2 resolves to the first
duplicate's rate. -/
theorem c10_duplicate_first_wins_witness :
    get_cfs_for_height 2 ([(1, 5)] ++ (2, 7) :: [] ++ (2, 9) :: [])
      = some (7, true) :=
  c10_duplicate_first_wins 2 7 9 [(1, 5)] [] [] (by norm_num)

/-- Claim C3: the current variant's lookup fails on an empty table (no rate,
hence no discharge), but the legacy variants substitute rate 0 when the
height has no row — on an empty table (or any absent height, e.g. 3.5 on the
default table) they report cfs_rate = 0 and an SPD of 0 instead of failing. -/
theorem c3_legacy_rate_zero_bug :
    (∀ hgt : ℚ, get_cfs_for_height hgt ([] : RateTable) = none) ∧
    legacy_cfs_rate (7/2) ([] : RateTable) = 0 ∧
    legacy_spd 1 1 (7/2) ([] : RateTable) = 0 ∧
    legacy_cfs_rate (7/2) sample_data = 0 ∧
    legacy_spd 1 1 (7/2) sample_data = 0 := by
  refine ⟨?_, ?_, ?_, ?_, ?_⟩
  · intro hgt; simp [get_cfs_for_height, abs_idxmin]
  · simp [legacy_cfs_rate]
  · simp [legacy_spd, legacy_cfs_rate]
  · norm_num [legacy_cfs_rate, sample_data]
  · norm_num [legacy_spd, legacy_cfs_rate, sample_data]

/-- Counterexample to C4: `calculate_discharge` called with gate_count = 0
does not fail — it returns an entry (with discharge 0), and the Calculate
handler appends it, changing the accumulator. -/
theorem c4_no_validation_counterexample :
    (∃ e : Entry, calculate_discharge 0 1 1 sample_data = some e ∧
      e.discharge = 0) ∧
    (calcButton emptyAccum 0 1 1 sample_data).calculations.length = 1 := by
  have h0 : get_cfs_for_height 1 sample_data = some (18000, true) := by
    norm_num [get_cfs_for_height, sample_data]
  constructor
  · refine ⟨Entry.mk 0 1 1 18000 (((0 : ℕ) : ℚ) * 1 * 18000 / (16 * 24)) true, ?_, ?_⟩
    · simp [calculate_discharge, h0]
    · norm_num
  · simp [calcButton, calculate_discharge, h0, appendCalc, emptyAccum]

/-- Amended C4: the UI widget bounds (gate_count between 1 and 50, duration
between 0.1 and 1000) make invalid inputs unreachable — they imply
gate_count ≥ 1 and duration > 0 — and for any such input on the default table
`calculate_discharge` produces an entry; the function itself performs no
validation. -/
theorem c4_ui_bounds_exclude_invalid (n : ℕ) (d hgt : ℚ)
    (hn : numGatesInput n) (hd : durationInput d) :
    1 ≤ n ∧ 0 < d ∧ ∃ e, calculate_discharge n d hgt sample_data = some e := by
  refine ⟨hn.1, lt_of_lt_of_le (by norm_num) hd.1, ?_⟩
  rw [← Option.isSome_iff_exists]
  cases hfind : sample_data.find? (fun e => decide (e.1 = hgt)) with
  | some p =>
    simp [calculate_discharge, get_cfs_for_height, hfind]
  | none =>
    obtain ⟨c, hc⟩ : ∃ c, abs_idxmin hgt sample_data = some c := by
      simp only [sample_data]
      exact abs_idxmin_isSome hgt _ _
    simp [calculate_discharge, get_cfs_for_height, hfind, hc]

/-- Witness for amended C4: gate_count 1 and duration 1 satisfy the widget
bounds and produce an entry at height 1.75. -/
theorem c4_ui_bounds_exclude_invalid_witness :
    1 ≤ 1 ∧ (0 : ℚ) < 1 ∧ ∃ e, calculate_discharge 1 1 (7/4) sample_data = some e :=
  c4_ui_bounds_exclude_invalid 1 1 (7/4)
    (by constructor <;> norm_num [numGatesInput])
    (by constructor <;> norm_num)

/-- Counterexample to C8: the warning shown for an inexact match interpolates
only the substituted height and its CFS value — two different requested
heights (1.75 and 1.6) yield the same warning content, so the warning does
not name the requested height. -/
theorem c8_warning_counterexample :
    closest_height_warning 1 1 (7/4) sample_data = some (3/2, 29000) ∧
    closest_height_warning 1 1 (8/5) sample_data = some (3/2, 29000) ∧
    (7/4 : ℚ) ≠ 8/5 := by
  refine ⟨?_, ?_, by norm_num⟩
  · norm_num [closest_height_warning, calculate_discharge, get_cfs_for_height,
      sample_data, abs_idxmin, List.find?, abs, max_def]
  · norm_num [closest_height_warning, calculate_discharge, get_cfs_for_height,
      sample_data, abs_idxmin, List.find?, abs, max_def]

/-- Amended C8: whenever a computed entry's resolution was inexact, a visible
warning is produced naming the height actually used and the CFS rate actually
used (which is that substituted row's rate); the requested height is not part
of the warning. -/
theorem c8_warning_on_inexact (n : ℕ) (d hgt : ℚ) (t : RateTable) (e : Entry)
    (hcalc : calculate_discharge n d hgt t = some e)
    (hex : e.exact_match = false) :
    ∃ c, abs_idxmin hgt t = some c ∧ e.cfs_value = c.2 ∧
      closest_height_warning n d hgt t = some (c.1, c.2) := by
  have hcalc2 := hcalc
  unfold calculate_discharge at hcalc2
  cases hg : get_cfs_for_height hgt t with
  | none =>
    simp only [hg] at hcalc2
    exact absurd hcalc2 (by simp)
  | some p =>
    obtain ⟨cfs, ex⟩ := p
    simp only [hg] at hcalc2
    have he : Entry.mk n d hgt cfs (((n : ℚ) * d * cfs) / (16 * 24)) ex = e := by
      exact Option.some_inj.mp hcalc2
    subst he
    simp only at hex
    subst hex
    unfold get_cfs_for_height at hg
    cases hfind : t.find? (fun x => decide (x.1 = hgt)) with
    | some q => simp [hfind] at hg
    | none =>
      simp only [hfind] at hg
      cases habs : abs_idxmin hgt t with
      | none => rw [habs] at hg; simp at hg
      | some c =>
        rw [habs] at hg
        simp at hg
        refine ⟨c, rfl, ?_, ?_⟩
        · exact hg.symm
        · simp only [closest_height_warning, hcalc, habs]
          simp [hg]

/-- Witness for amended C8: a computation at height 1.75 on the default table
is inexact and its warning names the substituted height 1.5 with rate 29000. -/
theorem c8_warning_on_inexact_witness :
    ∃ c, abs_idxmin (7/4) sample_data = some c ∧
      (Entry.mk 1 1 (7/4) 29000 (((1 : ℕ) : ℚ) * 1 * 29000 / (16 * 24))
        false).cfs_value = c.2 ∧
      closest_height_warning 1 1 (7/4) sample_data = some (c.1, c.2) := by
  have hres : get_cfs_for_height (7/4) sample_data = some (29000, false) := by
    norm_num [get_cfs_for_height, sample_data, abs_idxmin, List.find?, abs, max_def]
  have hcalc : calculate_discharge 1 1 (7/4) sample_data
      = some (Entry.mk 1 1 (7/4) 29000 (((1 : ℕ) : ℚ) * 1 * 29000 / (16 * 24))
          false) := by
    simp [calculate_discharge, hres]
  exact c8_warning_on_inexact 1 1 (7/4) sample_data _ hcalc rfl
